/-
Verification of the client-side logic of the danovy-poradce-pro frontend:
the authenticated fetch wrapper (src/frontend/src/services/api.ts), the
auth / company / invoice / transaction / settings Zustand stores, and the
Czech-locale formatters.

The embedding is a shallow one: each TypeScript function becomes a Lean
function; the browser world (auth store state, `window.location` navigation,
and the sequence of HTTP requests issued) is threaded explicitly; the server
is a parameter of type `Server` (a function from a request to an optional
response, `none` modelling a rejected `fetch`).  JavaScript's dynamic JSON
objects are modelled by a record of optional fields (`JsonBody`); an absent
field is `none`, mirroring `undefined`.  JavaScript truthiness of strings
(null / undefined / "" are falsy) is modelled by `truthy`.
-/
import Mathlib

namespace DPP

/-- A parsed JSON object, as the client reads it.  Each field the client
ever accesses is optional, mirroring JavaScript's `undefined` for absent
fields.  A whole response body that the client stores opaquely (e.g. the
`/auth/me` user object, a created invoice or company) is represented by the
record itself. -/
structure JsonBody where
  detail : Option String := none
  access_token : Option String := none
  refresh_token : Option String := none
  id : Option Int := none
  deriving Repr, DecidableEq

/-- An HTTP request as issued by the client: method, full path (the
`BASE_URL` prefix included) and the bearer token placed in the
`Authorization` header, if any. -/
structure Http where
  method : String
  path : String
  authToken : Option String
  body : Option JsonBody
  deriving Repr, DecidableEq

/-- An HTTP response: status code, status text, and the body —
`none` when the body is not parseable as JSON (so that `response.json()`
rejects), `some j` when it parses to `j`. -/
structure Resp where
  status : Nat
  statusText : String
  body : Option JsonBody
  deriving Repr, DecidableEq

/-- `response.ok`: status in the 2xx range (the fetch API uses 200–299). -/
def Resp.ok (r : Resp) : Bool := decide (200 ≤ r.status ∧ r.status ≤ 299)

/-- The server model: how each issued request is answered.  `none` models a
rejected `fetch` (network failure). -/
def Server : Type := Http → Option Resp

/-- An error thrown on the client.  `apiError` is the `ApiError` class of
api.ts (an `Error` carrying the HTTP status); `jsError` is any other thrown
`Error` (a `SyntaxError` from `response.json()` on an unparseable body, a
`TypeError` from a rejected `fetch`).  Both are `Error` instances, so both
carry a `message`. -/
inductive JsError where
  | apiError (status : Nat) (message : String)
  | jsError (message : String)
  deriving Repr, DecidableEq

/-- The human-readable `message` property of a thrown `Error`. -/
def JsError.message : JsError → String
  | .apiError _ m => m
  | .jsError m => m

deriving instance DecidableEq for Except

/-- JavaScript truthiness for an optional string: `null`/`undefined` and
`""` are falsy. -/
def truthy : Option String → Option String
  | none => none
  | some s => if s = "" then none else some s

/-- JavaScript `a || b` for `a` an optional string: falls through to `b`
when `a` is `undefined` or the empty string. -/
def jsOr (a : Option String) (b : String) : String :=
  match truthy a with
  | some s => s
  | none => b

/-- The auth store's state (useAuthStore.ts).  `user` holds the parsed
`/auth/me` response body. -/
structure AuthState where
  user : Option JsonBody
  accessToken : Option String
  refreshToken : Option String
  isAuthenticated : Bool
  isLoading : Bool
  error : Option String
  deriving Repr, DecidableEq

/-- The initial auth store state. -/
def AuthState.init : AuthState :=
  { user := none, accessToken := none, refreshToken := none,
    isAuthenticated := false, isLoading := false, error := none }

/-- `logout` of useAuthStore.ts: resets user, both tokens, the auth flag
and the error field. -/
def logout (s : AuthState) : AuthState :=
  { s with user := none, accessToken := none, refreshToken := none,
           isAuthenticated := false, error := none }

/-- The client-visible world: the auth store's state, the navigation target
assigned to `window.location.href` (if any), and the trace of HTTP requests
issued so far, in order. -/
structure World where
  auth : AuthState
  nav : Option String
  trace : List Http
  deriving Repr, DecidableEq

/-- A world with the given auth state, no navigation and an empty trace. -/
def mkWorld (a : AuthState) : World := ⟨a, none, []⟩

/-- Record one issued HTTP request in the trace. -/
def World.push (w : World) (r : Http) : World :=
  { w with trace := w.trace ++ [r] }

def BASE_URL : String := "/api/v1"

/-- The refresh request issued by `refreshAccessToken` with bearer `rt`. -/
def refreshReq (rt : String) : Http :=
  { method := "POST", path := BASE_URL ++ "/auth/refresh",
    authToken := some rt, body := none }

/-- The `/auth/me` request issued by `fetchUser` with bearer `tok`. -/
def meReq (tok : String) : Http :=
  { method := "GET", path := BASE_URL ++ "/auth/me",
    authToken := some tok, body := none }

/-- `refreshAccessToken` of useAuthStore.ts.  Returns `false` immediately
when no (truthy) refresh token is stored; otherwise POSTs to
`/auth/refresh` with the refresh token as bearer.  A non-ok answer, a
rejected fetch or an unparseable body logs the user out and returns
`false`; on success the two tokens are overwritten with the response's
`access_token` / `refresh_token` fields (which may be absent) and the call
returns `true`. -/
def refreshAccessToken (server : Server) (w : World) : Bool × World :=
  match truthy w.auth.refreshToken with
  | none => (false, w)
  | some rt =>
    let w := w.push (refreshReq rt)
    match server (refreshReq rt) with
    | none => (false, { w with auth := logout w.auth })
    | some r =>
      if ¬ r.ok then
        (false, { w with auth := logout w.auth })
      else
        match r.body with
        | none => (false, { w with auth := logout w.auth })
        | some j =>
          (true, { w with auth := { w.auth with
                     accessToken := j.access_token,
                     refreshToken := j.refresh_token } })

/-- `handleResponse` of api.ts.  A 401 answer triggers one
`refreshAccessToken` call; when that fails the client logs out and
navigates to `/login`; in either case a 401 `ApiError` is thrown — the
original request is never replayed.  Any other non-ok answer throws an
`ApiError` whose message is the body's `detail` field when truthy, else
the status text, with `{detail: "Unknown error"}` substituted for an
unparseable body.  An ok answer returns the parsed body, the parse error
propagating when the body is unparseable. -/
def handleResponse (server : Server) (w : World) (r : Resp) :
    Except JsError JsonBody × World :=
  if r.status = 401 then
    let (refreshed, w) := refreshAccessToken server w
    let w :=
      if ¬ refreshed then
        { w with auth := logout w.auth, nav := some "/login" }
      else w
    (.error (.apiError 401 "Unauthorized - please log in again"), w)
  else if ¬ r.ok then
    let errBody : JsonBody := r.body.getD { detail := some "Unknown error" }
    (.error (.apiError r.status (jsOr errBody.detail r.statusText)), w)
  else
    match r.body with
    | some j => (.ok j, w)
    | none => (.error (.jsError "SyntaxError: unexpected token"), w)

/-- `getAuthHeaders` of api.ts, reduced to the bearer token it attaches:
the stored access token when truthy, else no `Authorization` header. -/
def getAuthHeaders (w : World) : Option String := truthy w.auth.accessToken

/-- The request a wrapper method issues for `path`: `BASE_URL` prefix and
the auth headers of the current world. -/
def apiReq (method path : String) (w : World) (body : Option JsonBody) : Http :=
  { method := method, path := BASE_URL ++ path,
    authToken := getAuthHeaders w, body := body }

/-- Issue one request through `fetch` and feed the answer to
`handleResponse`; a rejected fetch propagates as a thrown `TypeError`.
Common core of `api.get` / `api.post` / `api.put`. -/
def apiRequest (server : Server) (w : World) (method path : String)
    (body : Option JsonBody) : Except JsError JsonBody × World :=
  let w' := w.push (apiReq method path w body)
  match server (apiReq method path w body) with
  | none => (.error (.jsError "TypeError: Failed to fetch"), w')
  | some r => handleResponse server w' r

/-- `api.get` of api.ts. -/
def apiGet (server : Server) (w : World) (path : String) :
    Except JsError JsonBody × World :=
  apiRequest server w "GET" path none

/-- `api.post` of api.ts: the body is sent only when `data` is truthy
(an object always is; absent data sends none). -/
def apiPost (server : Server) (w : World) (path : String)
    (data : Option JsonBody) : Except JsError JsonBody × World :=
  apiRequest server w "POST" path data

/-- `api.put` of api.ts. -/
def apiPut (server : Server) (w : World) (path : String) (data : JsonBody) :
    Except JsError JsonBody × World :=
  apiRequest server w "PUT" path (some data)

/-- `api.delete` of api.ts.  Unlike the other three methods it does not go
through `handleResponse`: a 401 answer logs out, navigates to `/login`
and RETURNS NORMALLY (no refresh attempt, nothing thrown); any other
non-ok answer throws an `ApiError` built like `handleResponse`'s; an ok
answer returns without reading the body. -/
def apiDelete (server : Server) (w : World) (path : String) :
    Except JsError Unit × World :=
  let w' := w.push (apiReq "DELETE" path w none)
  match server (apiReq "DELETE" path w none) with
  | none => (.error (.jsError "TypeError: Failed to fetch"), w')
  | some r =>
    if ¬ r.ok then
      if r.status = 401 then
        (.ok (), { w' with auth := logout w'.auth, nav := some "/login" })
      else
        let errBody : JsonBody := r.body.getD { detail := some "Unknown error" }
        (.error (.apiError r.status (jsOr errBody.detail r.statusText)), w')
    else
      (.ok (), w')

/-- `fetchUser` of useAuthStore.ts.  Returns silently when no (truthy)
access token is stored.  On a 401 from `/auth/me` it attempts a refresh
and, when the refresh succeeds, CALLS ITSELF AGAIN — so one originating
call can issue several refresh requests.  Every thrown error is swallowed
by the surrounding catch (logged to the console only).  The structural
`fuel` argument bounds the recursion depth; the source recursion is
unbounded, so any finite-fuel run is a prefix of the real behaviour. -/
def fetchUser (server : Server) : Nat → World → World
  | 0, w => w
  | fuel + 1, w =>
    match getAuthHeaders w with
    | none => w
    | some tok =>
      let w := w.push (meReq tok)
      match server (meReq tok) with
      | none => w
      | some r =>
        if ¬ r.ok then
          if r.status = 401 then
            let (refreshed, w) := refreshAccessToken server w
            if refreshed then fetchUser server fuel w else w
          else w
        else
          match r.body with
          | none => w
          | some j => { w with auth := { w.auth with user := some j } }

/-! ### Persisted state (zustand `persist` middleware `partialize`) -/

/-- The `auth-storage` blob: exactly the fields named in the auth store's
`partialize`. -/
structure PersistedAuth where
  accessToken : Option String
  refreshToken : Option String
  isAuthenticated : Bool
  deriving Repr, DecidableEq

/-- `partialize` of useAuthStore.ts: what is written under `auth-storage`. -/
def authPartialize (s : AuthState) : PersistedAuth :=
  { accessToken := s.accessToken,
    refreshToken := s.refreshToken,
    isAuthenticated := s.isAuthenticated }

/-- The company store's state (useCompanyStore).  A `Company` is a parsed
response body. -/
structure CompanyState where
  companies : List JsonBody
  currentCompany : Option JsonBody
  isLoading : Bool
  error : Option String
  deriving Repr, DecidableEq

/-- The `company-storage` blob: only the selected company. -/
structure PersistedCompany where
  currentCompany : Option JsonBody
  deriving Repr, DecidableEq

/-- `partialize` of the company store: what is written under
`company-storage`. -/
def companyPartialize (s : CompanyState) : PersistedCompany :=
  { currentCompany := s.currentCompany }

/-- The `/ai/status` payload cached by the settings store. -/
structure AIStatus where
  configured : Bool
  model : String
  analysis : Bool
  dividend_vs_salary : Bool
  recommendations : Bool
  compliance_check : Bool
  tax_concepts : Bool
  tax_deadlines : Bool
  deriving Repr, DecidableEq

/-- The settings store's state (useSettingsStore).  The string-union
fields of the source are modelled as strings. -/
structure SettingsState where
  theme : String
  language : String
  currency : String
  dateFormat : String
  aiStatus : Option AIStatus
  useAI : Bool
  defaultTaxYear : Int
  deriving Repr, DecidableEq

/-- The `settings-storage` blob: every settings field except `aiStatus`. -/
structure PersistedSettings where
  theme : String
  language : String
  currency : String
  dateFormat : String
  useAI : Bool
  defaultTaxYear : Int
  deriving Repr, DecidableEq

/-- `partialize` of the settings store: what is written under
`settings-storage`. -/
def settingsPartialize (s : SettingsState) : PersistedSettings :=
  { theme := s.theme, language := s.language, currency := s.currency,
    dateFormat := s.dateFormat, useAI := s.useAI,
    defaultTaxYear := s.defaultTaxYear }

/-! ### Company store actions -/

/-- `createCompany` of the company store: POSTs the data; on success the
returned company is appended to `companies` and becomes `currentCompany`;
on error the message is stored, `isLoading` cleared, and the error
rethrown (the `Except` in the result). -/
def createCompany (server : Server) (w : World) (st : CompanyState)
    (data : JsonBody) : Except JsError JsonBody × World × CompanyState :=
  let st := { st with isLoading := true, error := none }
  let (res, w) := apiPost server w "/companies" (some data)
  match res with
  | .ok company =>
    (.ok company, w,
     { st with companies := st.companies ++ [company],
               currentCompany := some company, isLoading := false })
  | .error e =>
    (.error e, w, { st with error := some e.message, isLoading := false })

/-- `deleteCompany` of the company store: DELETEs `/companies/{id}`; on
success every company with that id is filtered out and `currentCompany`
is nulled exactly when it had that id; on error the message is stored and
the error rethrown. -/
def deleteCompany (server : Server) (w : World) (st : CompanyState)
    (id : Int) : Except JsError Unit × World × CompanyState :=
  let st := { st with isLoading := true, error := none }
  let (res, w) := apiDelete server w ("/companies/" ++ toString id)
  match res with
  | .ok _ =>
    (.ok (), w,
     { st with companies := st.companies.filter (fun c => ¬ c.id = some id),
               currentCompany :=
                 match st.currentCompany with
                 | some c => if c.id = some id then none else some c
                 | none => none,
               isLoading := false })
  | .error e =>
    (.error e, w, { st with error := some e.message, isLoading := false })

/-- `updateCompany` of the company store: PUTs the data; on success every
company with that id is replaced by the returned record and
`currentCompany` is replaced exactly when it had that id; on error the
message is stored, `isLoading` cleared, and the error rethrown. -/
def updateCompany (server : Server) (w : World) (st : CompanyState)
    (id : Int) (data : JsonBody) :
    Except JsError JsonBody × World × CompanyState :=
  let st := { st with isLoading := true, error := none }
  let (res, w) := apiPut server w ("/companies/" ++ toString id) data
  match res with
  | .ok updated =>
    (.ok updated, w,
     { st with
        companies :=
          st.companies.map (fun c => if c.id = some id then updated else c),
        currentCompany :=
          match st.currentCompany with
          | some c => if c.id = some id then some updated else some c
          | none => none,
        isLoading := false })
  | .error e =>
    (.error e, w, { st with error := some e.message, isLoading := false })

/-! ### Invoice store actions -/

/-- The invoice store's state (useInvoiceStore); the fields the verified
actions touch.  `total` is a JavaScript number, modelled as `Int`. -/
structure InvoiceState where
  invoices : List JsonBody
  total : Int
  pages : Int
  currentPage : Int
  pageSize : Int
  isLoading : Bool
  error : Option String
  deriving Repr, DecidableEq

/-- The invoice store's initial state. -/
def InvoiceState.init : InvoiceState :=
  { invoices := [], total := 0, pages := 0, currentPage := 1,
    pageSize := 20, isLoading := false, error := none }

/-- `createInvoice` of useInvoiceStore.ts: POSTs the data; on success the
returned invoice is PREPENDED to `invoices` and `total` incremented by 1;
on error the message is stored, `isLoading` cleared, and the error
rethrown. -/
def createInvoice (server : Server) (w : World) (st : InvoiceState)
    (data : JsonBody) : Except JsError JsonBody × World × InvoiceState :=
  let st := { st with isLoading := true, error := none }
  let (res, w) := apiPost server w "/invoices" (some data)
  match res with
  | .ok invoice =>
    (.ok invoice, w,
     { st with invoices := invoice :: st.invoices,
               total := st.total + 1, isLoading := false })
  | .error e =>
    (.error e, w, { st with error := some e.message, isLoading := false })

/-- `deleteInvoice` of useInvoiceStore.ts: DELETEs `/invoices/{id}`; on
success the invoices with that id are filtered out and `total` is
decremented by 1 unconditionally — whether or not an invoice with that id
was present locally; on error the message is stored and the error
rethrown. -/
def deleteInvoice (server : Server) (w : World) (st : InvoiceState)
    (id : Int) : Except JsError Unit × World × InvoiceState :=
  let st := { st with isLoading := true, error := none }
  let (res, w) := apiDelete server w ("/invoices/" ++ toString id)
  match res with
  | .ok _ =>
    (.ok (), w,
     { st with invoices := st.invoices.filter (fun i => ¬ i.id = some id),
               total := st.total - 1, isLoading := false })
  | .error e =>
    (.error e, w, { st with error := some e.message, isLoading := false })

/-- `updateInvoice` of useInvoiceStore.ts: PUTs the data; on success every
invoice with that id is replaced by the returned record (`total`
untouched); on error the message is stored, `isLoading` cleared, and the
error rethrown. -/
def updateInvoice (server : Server) (w : World) (st : InvoiceState)
    (id : Int) (data : JsonBody) :
    Except JsError JsonBody × World × InvoiceState :=
  let st := { st with isLoading := true, error := none }
  let (res, w) := apiPut server w ("/invoices/" ++ toString id) data
  match res with
  | .ok updated =>
    (.ok updated, w,
     { st with
        invoices :=
          st.invoices.map (fun i => if i.id = some id then updated else i),
        isLoading := false })
  | .error e =>
    (.error e, w, { st with error := some e.message, isLoading := false })

/-- `markAsPaid` of useInvoiceStore.ts: POSTs to
`/invoices/{id}/mark-paid`, appending `?payment_date=...` only when a
(truthy) payment date was given; on success every invoice with that id is
replaced by the returned record; on error the message is stored,
`isLoading` cleared, and the error rethrown. -/
def markAsPaid (server : Server) (w : World) (st : InvoiceState)
    (id : Int) (paymentDate : Option String) :
    Except JsError JsonBody × World × InvoiceState :=
  let qp : String :=
    match truthy paymentDate with
    | some d => "?payment_date=" ++ d
    | none => ""
  let st := { st with isLoading := true, error := none }
  let (res, w) :=
    apiPost server w ("/invoices/" ++ toString id ++ "/mark-paid" ++ qp) none
  match res with
  | .ok updated =>
    (.ok updated, w,
     { st with
        invoices :=
          st.invoices.map (fun i => if i.id = some id then updated else i),
        isLoading := false })
  | .error e =>
    (.error e, w, { st with error := some e.message, isLoading := false })

/-! ### Transaction store actions -/

/-- The transaction store's state (useTransactionStore); the fields the
verified action touches. -/
structure TransactionState where
  transactions : List JsonBody
  total : Int
  pages : Int
  currentPage : Int
  pageSize : Int
  isLoading : Bool
  error : Option String
  deriving Repr, DecidableEq

/-- `createTransaction` of the transaction store: POSTs the data; on
success the returned transaction is prepended and `total` incremented; on
error the message is stored, `isLoading` cleared, and the error
rethrown. -/
def createTransaction (server : Server) (w : World) (st : TransactionState)
    (data : JsonBody) : Except JsError JsonBody × World × TransactionState :=
  let st := { st with isLoading := true, error := none }
  let (res, w) := apiPost server w "/transactions" (some data)
  match res with
  | .ok t =>
    (.ok t, w,
     { st with transactions := t :: st.transactions,
               total := st.total + 1, isLoading := false })
  | .error e =>
    (.error e, w, { st with error := some e.message, isLoading := false })

/-- `updateTransaction` of the transaction store: PUTs the data; on
success every transaction with that id is replaced by the returned
record; on error the message is stored, `isLoading` cleared, and the
error rethrown. -/
def updateTransaction (server : Server) (w : World) (st : TransactionState)
    (id : Int) (data : JsonBody) :
    Except JsError JsonBody × World × TransactionState :=
  let st := { st with isLoading := true, error := none }
  let (res, w) := apiPut server w ("/transactions/" ++ toString id) data
  match res with
  | .ok updated =>
    (.ok updated, w,
     { st with
        transactions :=
          st.transactions.map
            (fun t => if t.id = some id then updated else t),
        isLoading := false })
  | .error e =>
    (.error e, w, { st with error := some e.message, isLoading := false })

/-- `deleteTransaction` of the transaction store: DELETEs
`/transactions/{id}`; on success the transactions with that id are
filtered out and `total` decremented by 1 unconditionally; on error the
message is stored and the error rethrown. -/
def deleteTransaction (server : Server) (w : World) (st : TransactionState)
    (id : Int) : Except JsError Unit × World × TransactionState :=
  let st := { st with isLoading := true, error := none }
  let (res, w) := apiDelete server w ("/transactions/" ++ toString id)
  match res with
  | .ok _ =>
    (.ok (), w,
     { st with
        transactions :=
          st.transactions.filter (fun t => ¬ t.id = some id),
        total := st.total - 1, isLoading := false })
  | .error e =>
    (.error e, w, { st with error := some e.message, isLoading := false })

/-! ### Czech-locale formatters (formatters.ts)

`Intl.NumberFormat('cs-CZ', ...)` output is modelled exactly, with one
transliteration: the non-breaking spaces (U+00A0) that Intl uses as the
group separator and before the currency / percent sign are written as
plain spaces.  JavaScript numbers are modelled as rationals (every value
the claims mention is exactly representable), and Intl's default
`halfExpand` rounding is modelled by `roundHalfExpand`. -/

/-- Little-endian decimal digits of `n`, with `fuel` bounding the
recursion (any `fuel ≥` the digit count of `n` is enough). -/
def natDigitsAux : Nat → Nat → List Nat
  | 0, _ => []
  | _ + 1, 0 => []
  | fuel + 1, n => n % 10 :: natDigitsAux fuel (n / 10)

/-- Little-endian decimal digits of `n` (`[0]` for zero). -/
def natDigits (n : Nat) : List Nat :=
  if n = 0 then [0] else natDigitsAux n n

/-- Render little-endian digits with a group separator every three digits,
still little-endian: digit at index `i` is preceded (in big-endian
reading) by a separator when `i` is a positive multiple of 3. -/
def groupAuxLE : Nat → List Nat → List Char
  | _, [] => []
  | i, d :: rest =>
    (if i ≠ 0 ∧ i % 3 = 0 then [' ', Nat.digitChar d]
     else [Nat.digitChar d]) ++ groupAuxLE (i + 1) rest

/-- `n` in decimal with the cs-CZ thousands separator (space). -/
def groupNat (n : Nat) : String :=
  String.mk (groupAuxLE 0 (natDigits n)).reverse

/-- Exact rational multiplication, computed on numerators and
denominators (equal to `a * b`; spelled out so that concrete inputs
evaluate by kernel reduction). -/
def ratMul (a b : ℚ) : ℚ := mkRat (a.num * b.num) (a.den * b.den)

/-- Exact rational division (equal to `a / b` for `b ≠ 0`). -/
def ratDiv (a b : ℚ) : ℚ :=
  mkRat (a.num * Int.sign b.num * (b.den : ℤ)) (a.den * b.num.natAbs)

/-- Intl's default `halfExpand` rounding of `x·10^f` to an integer
(round to nearest, ties away from zero), computed on `x`'s numerator and
denominator: for `y = a/d ≥ 0`, `⌊y + 1/2⌋ = ⌊(2a + d)/(2d)⌋`, and Nat
division is the floor; a negative value rounds to minus the rounding of
its absolute value. -/
def roundScaledHalfExpand (f : Nat) (x : ℚ) : ℤ :=
  let a : Nat := x.num.natAbs * 10 ^ f
  let d : Nat := x.den
  let r : Nat := (2 * a + d) / (2 * d)
  if x.num < 0 then -(r : ℤ) else (r : ℤ)

/-- Zero-padded `f`-digit big-endian rendering of `m < 10^f`. -/
def padDigits (f : Nat) (m : Nat) : String :=
  let ds := natDigits m
  String.mk (((ds ++ List.replicate (f - ds.length) 0).map
    Nat.digitChar).reverse)

/-- cs-CZ rendering of `x` with exactly `f` fraction digits: grouped
integer part, decimal comma, `halfExpand` rounding. -/
def formatFixedCZ (f : Nat) (x : ℚ) : String :=
  let n := roundScaledHalfExpand f x
  let a := n.natAbs
  let sign := if n < 0 then "-" else ""
  if f = 0 then sign ++ groupNat a
  else sign ++ groupNat (a / 10 ^ f) ++ "," ++ padDigits f (a % 10 ^ f)

/-- `formatCurrency` of formatters.ts: cs-CZ currency style, CZK, zero
fraction digits — grouped amount followed by " Kč". -/
def formatCurrency (amount : ℚ) : String :=
  formatFixedCZ 0 amount ++ " Kč"

/-- `formatPercent` of formatters.ts: the source divides the input by 100
(`value / 100`, here `ratDiv value 100`) and hands it to Intl's percent
style, which scales the displayed number back up by 100 (`ratMul · 100`)
and renders it with exactly one fraction digit and " %" appended. -/
def formatPercent (value : ℚ) : String :=
  formatFixedCZ 1 (ratMul (ratDiv value 100) 100) ++ " %"

/-- `formatNumber` of formatters.ts: plain cs-CZ grouping (shown here for
integral values, the only use the claims make of it). -/
def formatNumber (value : ℤ) : String :=
  (if value < 0 then "-" else "") ++ groupNat value.natAbs

/-- Number of refresh-token requests in a trace. -/
def refreshCount (t : List Http) : Nat :=
  (t.filter (fun r => r.path = BASE_URL ++ "/auth/refresh")).length

/-- Number of requests to a given full path in a trace. -/
def countPath (p : String) (t : List Http) : Nat :=
  (t.filter (fun r => r.path = p)).length

/-! ### Concrete fixtures for witnesses and counterexamples -/

/-- A logged-in auth state: both tokens present, authenticated. -/
def aLoggedIn : AuthState :=
  { user := none, accessToken := some "tok", refreshToken := some "ref",
    isAuthenticated := true, isLoading := false, error := none }

/-- Fresh tokens as the refresh endpoint returns them. -/
def freshTokens : JsonBody :=
  { access_token := some "tok2", refresh_token := some "ref2" }

/-- A server that answers every request 401 except the refresh endpoint,
which succeeds with fresh tokens. -/
def srv401RefreshOk : Server := fun req =>
  if req.path = BASE_URL ++ "/auth/refresh" then
    some { status := 200, statusText := "OK", body := some freshTokens }
  else
    some { status := 401, statusText := "Unauthorized", body := none }

/-- A server that answers every request 401 except the refresh endpoint,
which fails with a 500. -/
def srv401RefreshFail : Server := fun req =>
  if req.path = BASE_URL ++ "/auth/refresh" then
    some { status := 500, statusText := "Internal Server Error", body := none }
  else
    some { status := 401, statusText := "Unauthorized", body := none }

/-- A server that answers every request 500 with an unparseable body. -/
def srv500NoBody : Server := fun _ =>
  some { status := 500, statusText := "Internal Server Error", body := none }

/-- A server that answers every request 200 with an unparseable body. -/
def srv200NoBody : Server := fun _ =>
  some { status := 200, statusText := "OK", body := none }

/-- A server that answers every request 200 with the given body. -/
def srv200 (j : JsonBody) : Server := fun _ =>
  some { status := 200, statusText := "OK", body := some j }

/-- A created entity (invoice / company / transaction) with id 7. -/
def entity7 : JsonBody := { id := some 7 }

/-- A company record with the given id. -/
def companyWithId (i : Int) : JsonBody := { id := some i }

/-- Whether a thrown error is the `ApiError` class (carries a status). -/
def JsError.isApiError : JsError → Bool
  | .apiError _ _ => true
  | .jsError _ => false

/-- The company store's initial state. -/
def CompanyState.init : CompanyState :=
  { companies := [], currentCompany := none, isLoading := false,
    error := none }

/-- The transaction store's initial state. -/
def TransactionState.init : TransactionState :=
  { transactions := [], total := 0, pages := 0, currentPage := 1,
    pageSize := 20, isLoading := false, error := none }

/-! ## Helper lemmas -/

theorem strAppend_left_cancel {s t u : String} (h : s ++ t = s ++ u) :
    t = u := by
  have h2 : (s ++ t).data = (s ++ u).data := congrArg String.data h
  simp only [String.data_append] at h2
  have h3 := List.append_cancel_left h2
  cases t; cases u
  exact congrArg String.mk h3

theorem basePath_ne_refresh {path : String} (hp : path ≠ "/auth/refresh") :
    BASE_URL ++ path ≠ BASE_URL ++ "/auth/refresh" :=
  fun h => hp (strAppend_left_cancel h)

/-- `refreshAccessToken` leaves the trace alone (no stored refresh token)
or appends exactly one refresh request. -/
theorem refreshAccessToken_trace (server : Server) (w : World) :
    (refreshAccessToken server w).2.trace = w.trace ∨
    ∃ rt, (refreshAccessToken server w).2.trace = w.trace ++ [refreshReq rt] := by
  cases htok : truthy w.auth.refreshToken with
  | none => exact Or.inl (by simp [refreshAccessToken, htok])
  | some rt =>
    refine Or.inr ⟨rt, ?_⟩
    cases hs : server (refreshReq rt) with
    | none => simp [refreshAccessToken, htok, hs, World.push]
    | some r =>
      by_cases hok : r.ok
      · cases hb : r.body <;>
          simp [refreshAccessToken, htok, hs, hok, hb, World.push]
      · simp [refreshAccessToken, htok, hs, hok, World.push]

/-- Exact form of the previous lemma: `refreshAccessToken` appends one
refresh request exactly when a truthy refresh token is stored. -/
theorem refreshAccessToken_trace_eq (server : Server) (w : World) :
    (refreshAccessToken server w).2.trace =
      (match truthy w.auth.refreshToken with
       | none => w.trace
       | some rt => w.trace ++ [refreshReq rt]) := by
  cases htok : truthy w.auth.refreshToken with
  | none => simp [refreshAccessToken, htok]
  | some rt =>
    cases hs : server (refreshReq rt) with
    | none => simp [refreshAccessToken, htok, hs, World.push]
    | some r =>
      by_cases hok : r.ok
      · cases hb : r.body <;>
          simp [refreshAccessToken, htok, hs, hok, hb, World.push]
      · simp [refreshAccessToken, htok, hs, hok, World.push]

theorem refreshCount_append_singleton (t : List Http) (req : Http) :
    refreshCount (t ++ [req]) =
      refreshCount t +
        (if req.path = BASE_URL ++ "/auth/refresh" then 1 else 0) := by
  simp only [refreshCount, List.filter_append, List.length_append]
  split <;> simp_all

theorem countPath_append_singleton (p : String) (t : List Http) (req : Http) :
    countPath p (t ++ [req]) =
      countPath p t + (if req.path = p then 1 else 0) := by
  simp only [countPath, List.filter_append, List.length_append]
  split <;> simp_all

theorem apiReq_path (m p : String) (w : World) (b : Option JsonBody) :
    (apiReq m p w b).path = BASE_URL ++ p := rfl

theorem refreshReq_path (rt : String) :
    (refreshReq rt).path = BASE_URL ++ "/auth/refresh" := rfl

/-- Stepping lemma: an answered request reduces a wrapper call to
`handleResponse` on the pushed world. -/
theorem apiRequest_some {server : Server} {w : World} {method path : String}
    {body : Option JsonBody} {r : Resp}
    (hs : server (apiReq method path w body) = some r) :
    apiRequest server w method path body =
      handleResponse server (w.push (apiReq method path w body)) r := by
  simp [apiRequest, hs]

/-- On a 401 the result of `handleResponse` is always the 401 `ApiError`,
whatever the refresh outcome. -/
theorem handleResponse_result_401 (server : Server) (w : World) (r : Resp)
    (h : r.status = 401) :
    (handleResponse server w r).1 =
      .error (.apiError 401 "Unauthorized - please log in again") := by
  rcases hra : refreshAccessToken server w with ⟨refreshed, w2⟩
  by_cases hr : refreshed <;> simp [handleResponse, h, hra, hr]

/-- On a 401 the trace after `handleResponse` is whatever
`refreshAccessToken` left (no further request — no replay). -/
theorem handleResponse_trace_401 (server : Server) (w : World) (r : Resp)
    (h : r.status = 401) :
    (handleResponse server w r).2.trace =
      (refreshAccessToken server w).2.trace := by
  rcases hra : refreshAccessToken server w with ⟨refreshed, w2⟩
  by_cases hr : refreshed <;> simp [handleResponse, h, hra, hr]

/-- On a 401 whose refresh fails, `handleResponse` logs out and navigates
to `/login`. -/
theorem handleResponse_401_refresh_failed (server : Server) (w : World)
    (r : Resp) (h : r.status = 401)
    (hf : (refreshAccessToken server w).1 = false) :
    (handleResponse server w r).2 =
      { (refreshAccessToken server w).2 with
        auth := logout (refreshAccessToken server w).2.auth,
        nav := some "/login" } := by
  rcases hra : refreshAccessToken server w with ⟨refreshed, w2⟩
  rw [hra] at hf
  simp only at hf
  simp [handleResponse, h, hra, hf]

/-- Off the 401 path, `handleResponse` leaves the world untouched. -/
theorem handleResponse_world_non401 (server : Server) (w : World) (r : Resp)
    (h : ¬ r.status = 401) : (handleResponse server w r).2 = w := by
  by_cases hok : r.ok
  · cases hb : r.body <;> simp [handleResponse, h, hok, hb]
  · simp [handleResponse, h, hok]

/-- One wrapper request adds at most one refresh request beyond the
request itself. -/
theorem apiRequest_refreshCount (server : Server) (w : World)
    (method path : String) (body : Option JsonBody)
    (hp : path ≠ "/auth/refresh") :
    refreshCount (apiRequest server w method path body).2.trace ≤
      refreshCount w.trace + 1 := by
  have hne2 : ¬ ((BASE_URL ++ path : String) = BASE_URL ++ "/auth/refresh") :=
    fun hh => hp (strAppend_left_cancel hh)
  cases hs : server (apiReq method path w body) with
  | none =>
    simp only [apiRequest, hs]
    simp [World.push, refreshCount_append_singleton, apiReq_path, hne2]
  | some r =>
    rw [apiRequest_some hs]
    by_cases h401 : r.status = 401
    · rw [handleResponse_trace_401 _ _ _ h401]
      rcases refreshAccessToken_trace server
          (w.push (apiReq method path w body)) with h | ⟨rt, h⟩ <;> rw [h]
      · simp [World.push, refreshCount_append_singleton, apiReq_path, hne2]
      · rw [refreshCount_append_singleton]
        simp [World.push, refreshCount_append_singleton, apiReq_path,
          refreshReq_path, hne2]
    · rw [handleResponse_world_non401 _ _ _ h401]
      simp [World.push, refreshCount_append_singleton, apiReq_path, hne2]

/-- `api.delete` records exactly its own request, nothing else. -/
theorem apiDelete_trace (server : Server) (w : World) (path : String) :
    (apiDelete server w path).2.trace =
      w.trace ++ [apiReq "DELETE" path w none] := by
  cases hs : server (apiReq "DELETE" path w none) with
  | none => simp [apiDelete, hs, World.push]
  | some r =>
    by_cases hok : r.ok
    · simp [apiDelete, hs, hok, World.push]
    · by_cases h401 : r.status = 401 <;>
        simp [apiDelete, hs, hok, h401, World.push]

/-- `api.delete` on a non-ok, non-401 answer throws the same `ApiError`
`handleResponse` would build. -/
theorem apiDelete_some_err (server : Server) (w : World) (path : String)
    (r : Resp) (hs : server (apiReq "DELETE" path w none) = some r)
    (hok : r.ok = false) (h401 : ¬ r.status = 401) :
    (apiDelete server w path).1 =
      .error (.apiError r.status
        (jsOr (r.body.getD { detail := some "Unknown error" }).detail
          r.statusText)) := by
  simp [apiDelete, hs, hok, h401]

/-! ## Claims -/

/-- C1, counterexample.  A GET whose response is 401 and whose refresh
call succeeds (4th conjunct: the refresh returned `true`) still yields the
401 `ApiError` (1st), hits the original path exactly once — no replay —
(2nd) after exactly one refresh request (3rd); and `api.delete` on the
same always-401 server performs no refresh call at all (5th).  This
refutes "replays the original request once and returns that replay's
result", and refutes it for `delete` even at "attempts exactly one token
refresh". -/
theorem c1_counterexample :
    (apiGet srv401RefreshOk (mkWorld aLoggedIn) "/x").1 =
      .error (.apiError 401 "Unauthorized - please log in again") ∧
    countPath (BASE_URL ++ "/x")
      (apiGet srv401RefreshOk (mkWorld aLoggedIn) "/x").2.trace = 1 ∧
    refreshCount (apiGet srv401RefreshOk (mkWorld aLoggedIn) "/x").2.trace = 1 ∧
    (refreshAccessToken srv401RefreshOk
      ((mkWorld aLoggedIn).push
        (apiReq "GET" "/x" (mkWorld aLoggedIn) none))).1 = true ∧
    refreshCount (apiDelete srv401RefreshOk (mkWorld aLoggedIn) "/x").2.trace
      = 0 := by
  refine ⟨by decide, by decide, by decide, by decide, by decide⟩

/-- C1, amended.  For get/post/put (shown for get; the three share
`apiRequest` and `handleResponse`), a 401 response triggers exactly one
refresh attempt — one refresh-token request when a (truthy) refresh
token is stored, none when not — and the call then throws the fixed 401
`ApiError` without ever replaying the original request: the original
path is hit exactly once.  `delete` attempts no refresh at all: on a 401
it logs out, navigates to /login, and returns normally without
throwing. -/
theorem c1_401_single_refresh_no_replay :
    ∀ (server : Server) (a : AuthState) (path : String) (r : Resp),
    path ≠ "/auth/refresh" →
    server (apiReq "GET" path (mkWorld a) none) = some r →
    r.status = 401 →
    (apiGet server (mkWorld a) path).1 =
      .error (.apiError 401 "Unauthorized - please log in again") ∧
    countPath (BASE_URL ++ path) (apiGet server (mkWorld a) path).2.trace
      = 1 ∧
    (truthy a.refreshToken = none →
      refreshCount (apiGet server (mkWorld a) path).2.trace = 0) ∧
    (∀ rt, truthy a.refreshToken = some rt →
      refreshCount (apiGet server (mkWorld a) path).2.trace = 1) ∧
    (∀ rd : Resp,
      server (apiReq "DELETE" path (mkWorld a) none) = some rd →
      rd.status = 401 →
      (apiDelete server (mkWorld a) path).1 = .ok () ∧
      (apiDelete server (mkWorld a) path).2.nav = some "/login" ∧
      (apiDelete server (mkWorld a) path).2.auth = logout a ∧
      refreshCount (apiDelete server (mkWorld a) path).2.trace = 0) := by
  intro server a path r hp hs h401
  have hne2 : ¬ ((BASE_URL ++ path : String) = BASE_URL ++ "/auth/refresh") :=
    fun hh => hp (strAppend_left_cancel hh)
  have hne3 : ¬ ((BASE_URL ++ "/auth/refresh" : String) = BASE_URL ++ path) :=
    fun hh => hne2 hh.symm
  have hstep : apiGet server (mkWorld a) path =
      handleResponse server
        ((mkWorld a).push (apiReq "GET" path (mkWorld a) none)) r := by
    simpa [apiGet] using apiRequest_some hs
  have htr : (apiGet server (mkWorld a) path).2.trace =
      (refreshAccessToken server
        ((mkWorld a).push (apiReq "GET" path (mkWorld a) none))).2.trace := by
    rw [hstep]
    exact handleResponse_trace_401 _ _ _ h401
  refine ⟨?_, ?_, ?_, ?_, ?_⟩
  · rw [hstep]
    exact handleResponse_result_401 _ _ _ h401
  · rw [htr, refreshAccessToken_trace_eq]
    simp only [mkWorld, World.push]
    cases htok : truthy a.refreshToken with
    | none => simp [countPath, apiReq_path]
    | some rt =>
      simp [countPath, apiReq_path, refreshReq_path, hne3]
  · intro htok
    rw [htr, refreshAccessToken_trace_eq]
    simp only [mkWorld, World.push]
    rw [htok]
    simp [refreshCount, apiReq_path, hne2]
  · intro rt htok
    rw [htr, refreshAccessToken_trace_eq]
    simp only [mkWorld, World.push]
    rw [htok]
    simp [refreshCount, apiReq_path, refreshReq_path, hne2]
  · intro rd hsd h401d
    have hokd : rd.ok = false := by simp [Resp.ok, h401d]
    refine ⟨?_, ?_, ?_, ?_⟩
    · simp [apiDelete, hsd, hokd, h401d]
    · simp [apiDelete, hsd, hokd, h401d]
    · simp only [apiDelete, hsd]
      simp [hokd, h401d, World.push, mkWorld]
    · rw [apiDelete_trace]
      simp [mkWorld, refreshCount, apiReq_path, hne2]

/-- Witness for `c1_401_single_refresh_no_replay` at the always-401
server (whose refresh endpoint succeeds), the logged-in state and path
"/x". -/
theorem c1_401_single_refresh_no_replay_witness :
    (("/x" : String) ≠ "/auth/refresh" ∧
     srv401RefreshOk (apiReq "GET" "/x" (mkWorld aLoggedIn) none) =
       some { status := 401, statusText := "Unauthorized", body := none } ∧
     ({ status := 401, statusText := "Unauthorized",
        body := none : Resp }).status = 401 ∧
     truthy aLoggedIn.refreshToken = some "ref" ∧
     srv401RefreshOk (apiReq "DELETE" "/x" (mkWorld aLoggedIn) none) =
       some { status := 401, statusText := "Unauthorized", body := none }) ∧
    ((apiGet srv401RefreshOk (mkWorld aLoggedIn) "/x").1 =
       .error (.apiError 401 "Unauthorized - please log in again") ∧
     countPath (BASE_URL ++ "/x")
       (apiGet srv401RefreshOk (mkWorld aLoggedIn) "/x").2.trace = 1 ∧
     refreshCount
       (apiGet srv401RefreshOk (mkWorld aLoggedIn) "/x").2.trace = 1 ∧
     ((apiDelete srv401RefreshOk (mkWorld aLoggedIn) "/x").1 = .ok () ∧
      (apiDelete srv401RefreshOk (mkWorld aLoggedIn) "/x").2.nav =
        some "/login" ∧
      (apiDelete srv401RefreshOk (mkWorld aLoggedIn) "/x").2.auth =
        logout aLoggedIn ∧
      refreshCount
        (apiDelete srv401RefreshOk (mkWorld aLoggedIn) "/x").2.trace
        = 0)) := by
  have T := c1_401_single_refresh_no_replay srv401RefreshOk aLoggedIn "/x"
    { status := 401, statusText := "Unauthorized", body := none }
    (by decide) (by decide) rfl
  exact ⟨⟨by decide, by decide, rfl, by decide, by decide⟩,
    T.1, T.2.1, T.2.2.2.1 "ref" (by decide),
    T.2.2.2.2 { status := 401, statusText := "Unauthorized", body := none }
      (by decide) rfl⟩

/-- C2, counterexample.  One originating `fetchUser` call against a server
that keeps answering 401 on `/auth/me` while the refresh endpoint keeps
succeeding issues TWO refresh-token requests within recursion depth 2 (the
source recursion is unbounded, so the real run issues even more) —
refuting "there is never a second refresh attempt for the same
originating call". -/
theorem c2_counterexample :
    refreshCount (fetchUser srv401RefreshOk 2 (mkWorld aLoggedIn)).trace
      = 2 := by decide

/-- C2, amended.  The api wrapper methods issue at most one refresh
request per originating call (get/post/put), and `delete` issues none；
but `fetchUser` is NOT so bounded: with the always-401 /
always-refreshable server it already issues two refresh requests within
recursion depth 2. -/
theorem c2_refresh_bound_api_only :
    (∀ (server : Server) (a : AuthState) (path : String)
        (data : Option JsonBody) (d : JsonBody),
      path ≠ "/auth/refresh" →
      refreshCount (apiGet server (mkWorld a) path).2.trace ≤ 1 ∧
      refreshCount (apiPost server (mkWorld a) path data).2.trace ≤ 1 ∧
      refreshCount (apiPut server (mkWorld a) path d).2.trace ≤ 1 ∧
      refreshCount (apiDelete server (mkWorld a) path).2.trace = 0) ∧
    refreshCount (fetchUser srv401RefreshOk 2 (mkWorld aLoggedIn)).trace
      = 2 := by
  constructor
  · intro server a path data d hp
    have hne2 : ¬ ((BASE_URL ++ path : String) = BASE_URL ++ "/auth/refresh") :=
      fun hh => hp (strAppend_left_cancel hh)
    refine ⟨?_, ?_, ?_, ?_⟩
    · simpa [apiGet, mkWorld, refreshCount] using
        apiRequest_refreshCount server (mkWorld a) "GET" path none hp
    · simpa [apiPost, mkWorld, refreshCount] using
        apiRequest_refreshCount server (mkWorld a) "POST" path data hp
    · simpa [apiPut, mkWorld, refreshCount] using
        apiRequest_refreshCount server (mkWorld a) "PUT" path (some d) hp
    · rw [apiDelete_trace]
      simp [mkWorld, refreshCount, apiReq, hne2]
  · decide

/-- Witness for `c2_refresh_bound_api_only` at the 500-answering server,
the logged-in state and path "/x". -/
theorem c2_refresh_bound_api_only_witness :
    (("/x" : String) ≠ "/auth/refresh") ∧
    (refreshCount (apiGet srv500NoBody (mkWorld aLoggedIn) "/x").2.trace
        ≤ 1 ∧
     refreshCount
        (apiPost srv500NoBody (mkWorld aLoggedIn) "/x" none).2.trace ≤ 1 ∧
     refreshCount
        (apiPut srv500NoBody (mkWorld aLoggedIn) "/x" { }).2.trace ≤ 1 ∧
     refreshCount
        (apiDelete srv500NoBody (mkWorld aLoggedIn) "/x").2.trace = 0) :=
  ⟨by decide,
   c2_refresh_bound_api_only.1 srv500NoBody aLoggedIn "/x" none { }
     (by decide)⟩

/-- C3, counterexample.  A 500 answer whose body is NOT parseable as JSON
produces the message "Unknown error", not the HTTP status text
("Internal Server Error") the claim requires in that case. -/
theorem c3_counterexample :
    (apiGet srv500NoBody (mkWorld aLoggedIn) "/x").1 =
      .error (.apiError 500 "Unknown error") ∧
    ("Unknown error" : String) ≠ "Internal Server Error" := by
  exact ⟨by decide, by decide⟩

/-- C3, amended.  For a non-2xx, non-401 response, get (hence post/put,
which share `handleResponse`) and delete throw an `ApiError` carrying the
response status whose message is: the body's `detail` field verbatim when
the body parses and `detail` is a non-empty string; the HTTP status text
when the body parses without a (non-empty) `detail`; and the fixed string
"Unknown error" when the body is not parseable as JSON. -/
theorem c3_error_message_cases :
    ∀ (server : Server) (a : AuthState) (path : String) (r : Resp),
    server (apiReq "GET" path (mkWorld a) none) = some r →
    server (apiReq "DELETE" path (mkWorld a) none) = some r →
    ¬ r.status = 401 → r.ok = false →
    (r.body = none →
      (apiGet server (mkWorld a) path).1 =
        .error (.apiError r.status "Unknown error") ∧
      (apiDelete server (mkWorld a) path).1 =
        .error (.apiError r.status "Unknown error")) ∧
    (∀ b d, r.body = some b → b.detail = some d → d ≠ "" →
      (apiGet server (mkWorld a) path).1 =
        .error (.apiError r.status d) ∧
      (apiDelete server (mkWorld a) path).1 =
        .error (.apiError r.status d)) ∧
    (∀ b, r.body = some b → (b.detail = none ∨ b.detail = some "") →
      (apiGet server (mkWorld a) path).1 =
        .error (.apiError r.status r.statusText) ∧
      (apiDelete server (mkWorld a) path).1 =
        .error (.apiError r.status r.statusText)) := by
  intro server a path r hs hsd h401 hok
  have hget : (apiGet server (mkWorld a) path).1 =
      .error (.apiError r.status
        (jsOr (r.body.getD { detail := some "Unknown error" }).detail
          r.statusText)) := by
    have hstep : apiGet server (mkWorld a) path =
        handleResponse server
          ((mkWorld a).push (apiReq "GET" path (mkWorld a) none)) r := by
      simpa [apiGet] using apiRequest_some hs
    rw [hstep]
    simp [handleResponse, h401, hok]
  have hdel := apiDelete_some_err server (mkWorld a) path r hsd hok h401
  refine ⟨?_, ?_, ?_⟩
  · intro hb
    rw [hget, hdel]
    simp [hb, jsOr, truthy]
  · intro b d hb hd hne
    rw [hget, hdel]
    simp [hb, hd, jsOr, truthy, hne]
  · intro b hb hd
    rw [hget, hdel]
    rcases hd with hd | hd <;> simp [hb, hd, jsOr, truthy]

/-- Witness for `c3_error_message_cases` at the 500-answering server with
unparseable body. -/
theorem c3_error_message_cases_witness :
    (srv500NoBody (apiReq "GET" "/x" (mkWorld aLoggedIn) none) =
       some { status := 500, statusText := "Internal Server Error",
              body := none } ∧
     srv500NoBody (apiReq "DELETE" "/x" (mkWorld aLoggedIn) none) =
       some { status := 500, statusText := "Internal Server Error",
              body := none } ∧
     ¬ (500 : Nat) = 401) ∧
    ((apiGet srv500NoBody (mkWorld aLoggedIn) "/x").1 =
       .error (.apiError 500 "Unknown error") ∧
     (apiDelete srv500NoBody (mkWorld aLoggedIn) "/x").1 =
       .error (.apiError 500 "Unknown error")) :=
  ⟨⟨by decide, by decide, by decide⟩,
   (c3_error_message_cases srv500NoBody aLoggedIn "/x"
     { status := 500, statusText := "Internal Server Error", body := none }
     (by decide) (by decide) (by decide) (by decide)).1 rfl⟩

/-- C4, counterexample.  `fetchUser` against a server whose refresh
endpoint fails with 500: the refresh attempt reaches the server and
fails, the session is cleared (all four fields reset), but no navigation
to a login route happens — refuting "and navigates to the login
route". -/
theorem c4_counterexample :
    (fetchUser srv401RefreshFail 1 (mkWorld aLoggedIn)).auth.user = none ∧
    (fetchUser srv401RefreshFail 1
      (mkWorld aLoggedIn)).auth.accessToken = none ∧
    (fetchUser srv401RefreshFail 1
      (mkWorld aLoggedIn)).auth.refreshToken = none ∧
    (fetchUser srv401RefreshFail 1
      (mkWorld aLoggedIn)).auth.isAuthenticated = false ∧
    (fetchUser srv401RefreshFail 1 (mkWorld aLoggedIn)).nav = none := by
  refine ⟨by decide, by decide, by decide, by decide, by decide⟩

/-- C4, amended.  A refresh attempt that reaches the server and fails
(non-ok answer or thrown fetch) always clears the stored session via
`logout` (1st part); when that failing refresh was triggered inside the
api wrapper's 401 handling, the client also navigates to "/login" (2nd
part); on the `fetchUser` path the session is cleared but NO navigation
happens (3rd part, concrete). -/
theorem c4_refresh_failure_clears_session :
    (∀ (server : Server) (w : World) (rt : String),
      truthy w.auth.refreshToken = some rt →
      (server (refreshReq rt) = none ∨
       ∃ r, server (refreshReq rt) = some r ∧ r.ok = false) →
      (refreshAccessToken server w).1 = false ∧
      (refreshAccessToken server w).2.auth = logout w.auth) ∧
    (∀ (server : Server) (a : AuthState) (path : String) (r : Resp),
      server (apiReq "GET" path (mkWorld a) none) = some r →
      r.status = 401 →
      (refreshAccessToken server
        ((mkWorld a).push (apiReq "GET" path (mkWorld a) none))).1
        = false →
      (apiGet server (mkWorld a) path).2.nav = some "/login" ∧
      (apiGet server (mkWorld a) path).2.auth.user = none ∧
      (apiGet server (mkWorld a) path).2.auth.accessToken = none ∧
      (apiGet server (mkWorld a) path).2.auth.refreshToken = none ∧
      (apiGet server (mkWorld a) path).2.auth.isAuthenticated = false) ∧
    ((fetchUser srv401RefreshFail 1 (mkWorld aLoggedIn)).auth
        = logout aLoggedIn ∧
     (fetchUser srv401RefreshFail 1 (mkWorld aLoggedIn)).nav = none) := by
  refine ⟨?_, ?_, by decide, by decide⟩
  · intro server w rt htok hfail
    rcases hfail with hs | ⟨r, hs, hok⟩
    · simp [refreshAccessToken, htok, hs, World.push]
    · simp [refreshAccessToken, htok, hs, hok, World.push]
  · intro server a path r hs h401 hf
    have hstep : apiGet server (mkWorld a) path =
        handleResponse server
          ((mkWorld a).push (apiReq "GET" path (mkWorld a) none)) r := by
      simpa [apiGet] using apiRequest_some hs
    rw [hstep, handleResponse_401_refresh_failed _ _ _ h401 hf]
    simp [logout]

/-- Witness for `c4_refresh_failure_clears_session`: its first part at the
failing-refresh server and the logged-in world. -/
theorem c4_refresh_failure_clears_session_witness :
    (truthy (mkWorld aLoggedIn).auth.refreshToken = some "ref" ∧
     srv401RefreshFail (refreshReq "ref") =
       some { status := 500, statusText := "Internal Server Error",
              body := none }) ∧
    ((refreshAccessToken srv401RefreshFail (mkWorld aLoggedIn)).1 = false ∧
     (refreshAccessToken srv401RefreshFail (mkWorld aLoggedIn)).2.auth =
       logout (mkWorld aLoggedIn).auth) :=
  ⟨⟨by decide, by decide⟩,
   c4_refresh_failure_clears_session.1 srv401RefreshFail
     (mkWorld aLoggedIn) "ref" (by decide)
     (Or.inr ⟨{ status := 500, statusText := "Internal Server Error",
                body := none }, by decide, by decide⟩)⟩

/-- C5.  Each store's `partialize` writes exactly its allow-list:
`auth-storage` holds the two tokens and the auth flag and nothing else
(in particular changing `user`, `isLoading` or `error` leaves the
persisted blob untouched); `company-storage` holds only `currentCompany`
(the companies list, `isLoading`, `error` never persist); and
`settings-storage` holds the six preference fields while `aiStatus`
never persists. -/
theorem c5_persisted_allow_lists :
    (∀ s : AuthState, authPartialize s =
      { accessToken := s.accessToken, refreshToken := s.refreshToken,
        isAuthenticated := s.isAuthenticated }) ∧
    (∀ (s : AuthState) (u : Option JsonBody) (il : Bool)
        (e : Option String),
      authPartialize { s with user := u, isLoading := il, error := e } =
        authPartialize s) ∧
    (∀ s : CompanyState, companyPartialize s =
      { currentCompany := s.currentCompany }) ∧
    (∀ (s : CompanyState) (cs : List JsonBody) (il : Bool)
        (e : Option String),
      companyPartialize
        { s with companies := cs, isLoading := il, error := e } =
        companyPartialize s) ∧
    (∀ s : SettingsState, settingsPartialize s =
      { theme := s.theme, language := s.language, currency := s.currency,
        dateFormat := s.dateFormat, useAI := s.useAI,
        defaultTaxYear := s.defaultTaxYear }) ∧
    (∀ (s : SettingsState) (ai : Option AIStatus),
      settingsPartialize { s with aiStatus := ai } = settingsPartialize s) :=
  ⟨fun _ => rfl, fun _ _ _ _ => rfl, fun _ => rfl, fun _ _ _ _ => rfl,
   fun _ => rfl, fun _ _ => rfl⟩

/-- C6, counterexample.  `formatPercent` divides its input by 100 before
handing it to the percent style, so 0.125 (= `mkRat 1 8`) renders as
"0,1 %", not the claimed equivalent of "12.5 %". -/
theorem c6_counterexample :
    formatPercent (mkRat 1 8) = "0,1 %" ∧
    ("0,1 %" : String) ≠ "12,5 %" ∧
    ("0,1 %" : String) ≠ "12.5 %" :=
  ⟨by decide, by decide, by decide⟩

/-- C6, amended.  `formatCurrency 45000` is the cs-CZ "45 000 Kč" (the
Intl non-breaking spaces transliterated to plain spaces), and
`formatPercent` treats its input as a percentage value already: 12.5
(= `mkRat 25 2`) renders "12,5 %", 21 renders "21,0 %", while 0.125
renders "0,1 %".  Both formatters are pure Lean functions, hence
deterministic. -/
theorem c6_formatters_czech_locale :
    formatCurrency 45000 = "45 000 Kč" ∧
    formatPercent (mkRat 25 2) = "12,5 %" ∧
    formatPercent 21 = "21,0 %" ∧
    formatPercent (mkRat 1 8) = "0,1 %" :=
  ⟨by decide, by decide, by decide, by decide⟩

/-- C7, counterexample.  A 200 answer whose body is not parseable as JSON
makes the wrapper surface a thrown `SyntaxError` — an error that is NOT
the `ApiError` class and carries no HTTP status, refuting "every error
surfaced by the api wrapper is a thrown exception carrying the HTTP
status and a detail message". -/
theorem c7_counterexample :
    (apiGet srv200NoBody (mkWorld aLoggedIn) "/x").1 =
      .error (.jsError "SyntaxError: unexpected token") ∧
    JsError.isApiError (.jsError "SyntaxError: unexpected token") = false :=
  ⟨by decide, by decide⟩

/-- C7, amended.  Every error the wrapper raises FOR A NON-OK HTTP
RESPONSE is an `ApiError` carrying that response's status and a message
(part 1; an ok response with an unparseable body instead surfaces a plain
parse error, per the counterexample); and every store mutation action —
create, update, delete and markAsPaid across the invoice, transaction
and company stores — on any thrown error stores the error's `message` in
its `error` field, clears `isLoading`, and rethrows the same error (the
rethrow is the `.error e` result itself). -/
theorem c7_error_classification_and_store_handling :
    (∀ (server : Server) (a : AuthState) (path : String) (r : Resp),
      server (apiReq "GET" path (mkWorld a) none) = some r →
      r.ok = false →
      ∃ m, (apiGet server (mkWorld a) path).1 =
        .error (.apiError r.status m)) ∧
    (∀ (server : Server) (w : World) (st : InvoiceState) (data : JsonBody)
        (e : JsError),
      (createInvoice server w st data).1 = .error e →
      (createInvoice server w st data).2.2.error = some e.message ∧
      (createInvoice server w st data).2.2.isLoading = false) ∧
    (∀ (server : Server) (w : World) (st : InvoiceState) (i : Int)
        (data : JsonBody) (e : JsError),
      (updateInvoice server w st i data).1 = .error e →
      (updateInvoice server w st i data).2.2.error = some e.message ∧
      (updateInvoice server w st i data).2.2.isLoading = false) ∧
    (∀ (server : Server) (w : World) (st : InvoiceState) (i : Int)
        (e : JsError),
      (deleteInvoice server w st i).1 = .error e →
      (deleteInvoice server w st i).2.2.error = some e.message ∧
      (deleteInvoice server w st i).2.2.isLoading = false) ∧
    (∀ (server : Server) (w : World) (st : InvoiceState) (i : Int)
        (pd : Option String) (e : JsError),
      (markAsPaid server w st i pd).1 = .error e →
      (markAsPaid server w st i pd).2.2.error = some e.message ∧
      (markAsPaid server w st i pd).2.2.isLoading = false) ∧
    (∀ (server : Server) (w : World) (st : TransactionState)
        (data : JsonBody) (e : JsError),
      (createTransaction server w st data).1 = .error e →
      (createTransaction server w st data).2.2.error = some e.message ∧
      (createTransaction server w st data).2.2.isLoading = false) ∧
    (∀ (server : Server) (w : World) (st : TransactionState) (i : Int)
        (data : JsonBody) (e : JsError),
      (updateTransaction server w st i data).1 = .error e →
      (updateTransaction server w st i data).2.2.error = some e.message ∧
      (updateTransaction server w st i data).2.2.isLoading = false) ∧
    (∀ (server : Server) (w : World) (st : TransactionState) (i : Int)
        (e : JsError),
      (deleteTransaction server w st i).1 = .error e →
      (deleteTransaction server w st i).2.2.error = some e.message ∧
      (deleteTransaction server w st i).2.2.isLoading = false) ∧
    (∀ (server : Server) (w : World) (st : CompanyState) (data : JsonBody)
        (e : JsError),
      (createCompany server w st data).1 = .error e →
      (createCompany server w st data).2.2.error = some e.message ∧
      (createCompany server w st data).2.2.isLoading = false) ∧
    (∀ (server : Server) (w : World) (st : CompanyState) (i : Int)
        (data : JsonBody) (e : JsError),
      (updateCompany server w st i data).1 = .error e →
      (updateCompany server w st i data).2.2.error = some e.message ∧
      (updateCompany server w st i data).2.2.isLoading = false) ∧
    (∀ (server : Server) (w : World) (st : CompanyState) (i : Int)
        (e : JsError),
      (deleteCompany server w st i).1 = .error e →
      (deleteCompany server w st i).2.2.error = some e.message ∧
      (deleteCompany server w st i).2.2.isLoading = false) := by
  refine ⟨?_, ?_, ?_, ?_, ?_, ?_, ?_, ?_, ?_, ?_, ?_⟩
  · intro server a path r hs hok
    have hstep : apiGet server (mkWorld a) path =
        handleResponse server
          ((mkWorld a).push (apiReq "GET" path (mkWorld a) none)) r := by
      simpa [apiGet] using apiRequest_some hs
    by_cases h401 : r.status = 401
    · refine ⟨"Unauthorized - please log in again", ?_⟩
      rw [hstep, h401]
      exact handleResponse_result_401 _ _ _ h401
    · refine ⟨jsOr (r.body.getD { detail := some "Unknown error" }).detail
        r.statusText, ?_⟩
      rw [hstep]
      simp [handleResponse, h401, hok]
  · intro server w st data e he
    rcases hres : apiPost server w "/invoices" (some data) with ⟨res, w2⟩
    cases res with
    | ok v => simp [createInvoice, hres] at he
    | error e2 =>
      simp [createInvoice, hres] at he
      simp [createInvoice, hres, he]
  · intro server w st i data e he
    rcases hres : apiPut server w ("/invoices/" ++ toString i) data with
      ⟨res, w2⟩
    cases res with
    | ok v => simp [updateInvoice, hres] at he
    | error e2 =>
      simp [updateInvoice, hres] at he
      simp [updateInvoice, hres, he]
  · intro server w st i e he
    rcases hres : apiDelete server w ("/invoices/" ++ toString i) with
      ⟨res, w2⟩
    cases res with
    | ok v => simp [deleteInvoice, hres] at he
    | error e2 =>
      simp [deleteInvoice, hres] at he
      simp [deleteInvoice, hres, he]
  · intro server w st i pd e he
    rcases hres : apiPost server w
        ("/invoices/" ++ toString i ++ "/mark-paid" ++
          (match truthy pd with
           | some d => "?payment_date=" ++ d
           | none => "")) none with ⟨res, w2⟩
    cases res with
    | ok v => simp [markAsPaid, hres] at he
    | error e2 =>
      simp [markAsPaid, hres] at he
      simp [markAsPaid, hres, he]
  · intro server w st data e he
    rcases hres : apiPost server w "/transactions" (some data) with
      ⟨res, w2⟩
    cases res with
    | ok v => simp [createTransaction, hres] at he
    | error e2 =>
      simp [createTransaction, hres] at he
      simp [createTransaction, hres, he]
  · intro server w st i data e he
    rcases hres : apiPut server w ("/transactions/" ++ toString i) data with
      ⟨res, w2⟩
    cases res with
    | ok v => simp [updateTransaction, hres] at he
    | error e2 =>
      simp [updateTransaction, hres] at he
      simp [updateTransaction, hres, he]
  · intro server w st i e he
    rcases hres : apiDelete server w ("/transactions/" ++ toString i) with
      ⟨res, w2⟩
    cases res with
    | ok v => simp [deleteTransaction, hres] at he
    | error e2 =>
      simp [deleteTransaction, hres] at he
      simp [deleteTransaction, hres, he]
  · intro server w st data e he
    rcases hres : apiPost server w "/companies" (some data) with ⟨res, w2⟩
    cases res with
    | ok v => simp [createCompany, hres] at he
    | error e2 =>
      simp [createCompany, hres] at he
      simp [createCompany, hres, he]
  · intro server w st i data e he
    rcases hres : apiPut server w ("/companies/" ++ toString i) data with
      ⟨res, w2⟩
    cases res with
    | ok v => simp [updateCompany, hres] at he
    | error e2 =>
      simp [updateCompany, hres] at he
      simp [updateCompany, hres, he]
  · intro server w st i e he
    rcases hres : apiDelete server w ("/companies/" ++ toString i) with
      ⟨res, w2⟩
    cases res with
    | ok v => simp [deleteCompany, hres] at he
    | error e2 =>
      simp [deleteCompany, hres] at he
      simp [deleteCompany, hres, he]

/-- Witness for `c7_error_classification_and_store_handling`:
`createInvoice` against the 500-answering server. -/
theorem c7_error_classification_witness :
    ((createInvoice srv500NoBody (mkWorld aLoggedIn) InvoiceState.init
        { }).1 = .error (.apiError 500 "Unknown error")) ∧
    ((createInvoice srv500NoBody (mkWorld aLoggedIn) InvoiceState.init
        { }).2.2.error =
      some (JsError.message (.apiError 500 "Unknown error")) ∧
     (createInvoice srv500NoBody (mkWorld aLoggedIn) InvoiceState.init
        { }).2.2.isLoading = false) :=
  ⟨by decide,
   c7_error_classification_and_store_handling.2.1 srv500NoBody
     (mkWorld aLoggedIn) InvoiceState.init { }
     (.apiError 500 "Unknown error") (by decide)⟩

/-- C8.  `refreshAccessToken` with no stored refresh token returns
`false` and leaves the whole world (state, navigation, trace) untouched
(part 1); a refresh that reaches the server and gets a non-ok answer
returns `false` AND logs the session out (part 2); and concretely a
`false` return does not imply the session was cleared: with a null
refresh token and `isAuthenticated = true` the flag stays `true`
(part 3). -/
theorem c8_null_refresh_token_is_pure_false :
    (∀ (server : Server) (w : World),
      w.auth.refreshToken = none →
      refreshAccessToken server w = (false, w)) ∧
    (∀ (server : Server) (w : World) (rt : String) (r : Resp),
      truthy w.auth.refreshToken = some rt →
      server (refreshReq rt) = some r → r.ok = false →
      (refreshAccessToken server w).1 = false ∧
      (refreshAccessToken server w).2.auth = logout w.auth) ∧
    ((refreshAccessToken srv401RefreshFail
        (mkWorld { aLoggedIn with refreshToken := none })).1 = false ∧
     (refreshAccessToken srv401RefreshFail
        (mkWorld { aLoggedIn with
          refreshToken := none })).2.auth.isAuthenticated = true) := by
  refine ⟨?_, ?_, by decide, by decide⟩
  · intro server w h
    simp [refreshAccessToken, h, truthy]
  · intro server w rt r htok hs hok
    simp [refreshAccessToken, htok, hs, hok, World.push]

/-- Witness for `c8_null_refresh_token_is_pure_false`: part 1 at the
failing server and a tokenless world. -/
theorem c8_null_refresh_token_witness :
    ((mkWorld { aLoggedIn with refreshToken := none }).auth.refreshToken
       = none) ∧
    refreshAccessToken srv401RefreshFail
      (mkWorld { aLoggedIn with refreshToken := none }) =
      (false, mkWorld { aLoggedIn with refreshToken := none }) :=
  ⟨by decide,
   c8_null_refresh_token_is_pure_false.1 srv401RefreshFail
     (mkWorld { aLoggedIn with refreshToken := none }) (by decide)⟩

/-- C9.  After a successful `createCompany` the returned company is
appended to the list and becomes `currentCompany`; after a successful
`deleteCompany i` no company with id `i` remains, every other company
survives, and `currentCompany` becomes `none` exactly when the selected
company had id `i` (otherwise it is unchanged, and a `none` selection
stays `none`). -/
theorem c9_company_create_delete_effects :
    (∀ (server : Server) (w : World) (st : CompanyState)
        (data company : JsonBody) (w' : World) (st' : CompanyState),
      createCompany server w st data = (.ok company, w', st') →
      st'.companies = st.companies ++ [company] ∧
      st'.currentCompany = some company) ∧
    (∀ (server : Server) (w : World) (st : CompanyState) (i : Int)
        (w' : World) (st' : CompanyState),
      deleteCompany server w st i = (.ok (), w', st') →
      (∀ c ∈ st'.companies, ¬ c.id = some i) ∧
      (∀ c ∈ st.companies, ¬ c.id = some i → c ∈ st'.companies) ∧
      (∀ c, st.currentCompany = some c →
        (c.id = some i → st'.currentCompany = none) ∧
        (¬ c.id = some i → st'.currentCompany = some c)) ∧
      (st.currentCompany = none → st'.currentCompany = none)) := by
  constructor
  · intro server w st data company w' st' h
    rcases hres : apiPost server w "/companies" (some data) with ⟨res, w2⟩
    cases res with
    | error e => simp [createCompany, hres] at h
    | ok c =>
      simp [createCompany, hres] at h
      obtain ⟨hc, _, hst⟩ := h
      subst hc
      rw [← hst]
      exact ⟨rfl, rfl⟩
  · intro server w st i w' st' h
    rcases hres : apiDelete server w ("/companies/" ++ toString i) with
      ⟨res, w2⟩
    cases res with
    | error e => simp [deleteCompany, hres] at h
    | ok u =>
      simp [deleteCompany, hres] at h
      obtain ⟨_, hst⟩ := h
      refine ⟨?_, ?_, ?_, ?_⟩
      · intro c hc
        rw [← hst] at hc
        simp only [List.mem_filter] at hc
        simpa using hc.2
      · intro c hc hcid
        rw [← hst]
        simp only [List.mem_filter]
        exact ⟨hc, by simpa using hcid⟩
      · intro c hcur
        rw [← hst]
        constructor
        · intro hid
          simp [hcur, hid]
        · intro hid
          simp [hcur, hid]
      · intro hcur
        rw [← hst]
        simp [hcur]

/-- Witness for `c9_company_create_delete_effects`: a successful create
against a 200 server returning the company with id 7. -/
theorem c9_company_create_delete_witness :
    (createCompany (srv200 entity7) (mkWorld aLoggedIn) CompanyState.init
        { } =
      (.ok entity7,
       (createCompany (srv200 entity7) (mkWorld aLoggedIn)
         CompanyState.init { }).2.1,
       (createCompany (srv200 entity7) (mkWorld aLoggedIn)
         CompanyState.init { }).2.2)) ∧
    ((createCompany (srv200 entity7) (mkWorld aLoggedIn) CompanyState.init
        { }).2.2.companies = CompanyState.init.companies ++ [entity7] ∧
     (createCompany (srv200 entity7) (mkWorld aLoggedIn) CompanyState.init
        { }).2.2.currentCompany = some entity7) :=
  ⟨by decide,
   c9_company_create_delete_effects.1 (srv200 entity7) (mkWorld aLoggedIn)
     CompanyState.init { } entity7
     (createCompany (srv200 entity7) (mkWorld aLoggedIn) CompanyState.init
       { }).2.1
     (createCompany (srv200 entity7) (mkWorld aLoggedIn) CompanyState.init
       { }).2.2
     (by decide)⟩

/-- C10.  A successful `createInvoice` prepends the returned invoice and
increments `total` by exactly 1 (part 1); a successful `deleteInvoice`
decrements `total` by exactly 1 with no membership check (part 2); and
concretely, deleting id 5 from the initial store (empty list, `total`
0) succeeds against a 200 server and drives `total` to −1 < 0
(part 3). -/
theorem c10_total_counter_unguarded :
    (∀ (server : Server) (w : World) (st : InvoiceState)
        (data invoice : JsonBody) (w' : World) (st' : InvoiceState),
      createInvoice server w st data = (.ok invoice, w', st') →
      st'.invoices = invoice :: st.invoices ∧ st'.total = st.total + 1) ∧
    (∀ (server : Server) (w : World) (st : InvoiceState) (i : Int)
        (w' : World) (st' : InvoiceState),
      deleteInvoice server w st i = (.ok (), w', st') →
      st'.total = st.total - 1) ∧
    ((deleteInvoice (srv200 entity7) (mkWorld aLoggedIn)
        InvoiceState.init 5).1 = .ok () ∧
     (deleteInvoice (srv200 entity7) (mkWorld aLoggedIn)
        InvoiceState.init 5).2.2.total = -1 ∧
     (-1 : Int) < 0) := by
  refine ⟨?_, ?_, by decide, by decide, by decide⟩
  · intro server w st data invoice w' st' h
    rcases hres : apiPost server w "/invoices" (some data) with ⟨res, w2⟩
    cases res with
    | error e => simp [createInvoice, hres] at h
    | ok c =>
      simp [createInvoice, hres] at h
      obtain ⟨hc, _, hst⟩ := h
      subst hc
      rw [← hst]
      exact ⟨rfl, rfl⟩
  · intro server w st i w' st' h
    rcases hres : apiDelete server w ("/invoices/" ++ toString i) with
      ⟨res, w2⟩
    cases res with
    | error e => simp [deleteInvoice, hres] at h
    | ok u =>
      simp [deleteInvoice, hres] at h
      obtain ⟨_, hst⟩ := h
      rw [← hst]

/-- Witness for `c10_total_counter_unguarded`: a successful create
against the 200 server returning invoice id 7. -/
theorem c10_total_counter_witness :
    (createInvoice (srv200 entity7) (mkWorld aLoggedIn) InvoiceState.init
        { } =
      (.ok entity7,
       (createInvoice (srv200 entity7) (mkWorld aLoggedIn)
         InvoiceState.init { }).2.1,
       (createInvoice (srv200 entity7) (mkWorld aLoggedIn)
         InvoiceState.init { }).2.2)) ∧
    ((createInvoice (srv200 entity7) (mkWorld aLoggedIn) InvoiceState.init
        { }).2.2.invoices = entity7 :: InvoiceState.init.invoices ∧
     (createInvoice (srv200 entity7) (mkWorld aLoggedIn) InvoiceState.init
        { }).2.2.total = InvoiceState.init.total + 1) :=
  ⟨by decide,
   c10_total_counter_unguarded.1 (srv200 entity7) (mkWorld aLoggedIn)
     InvoiceState.init { } entity7
     (createInvoice (srv200 entity7) (mkWorld aLoggedIn) InvoiceState.init
       { }).2.1
     (createInvoice (srv200 entity7) (mkWorld aLoggedIn) InvoiceState.init
       { }).2.2
     (by decide)⟩

end DPP
